import Mathlib

/-!
Verification of the natural-language specification of `aws_inventory_scan`
against a shallow embedding of its source code.

The embedding covers:
* the error classifier `AWSErrorHandler.handle_error` and the retry wrapper
  `aws_api_call_with_retry` (src/error_handlers.py);
* the declarative service-mapping registry, the response-extraction algorithm
  of `get_service_resources`, and the task-building / orchestration logic of
  `get_all_resource_arns` (src/scan_aws.py);
* the `DEFAULT_CONFIG` global-service list (src/config.py).

Remote API responses are modelled as a JSON-like tree `JVal`; a boto3 client
is modelled as a total function from (service, method, parameters) to either
a structured response or a fault.  Wall-clock effects (`time.sleep`,
`random.uniform`) are modelled by recording the slept durations as rationals
and taking the jitter sequence as an explicit parameter.  Process
termination (`exit(1)`) is modelled as the `none` outcome of the scan.
-/

/-- A fault raised by an API call: either a botocore `ClientError` carrying an
error code (a missing code is represented by the code `"Unknown"`, matching
`error.response.get('Error', {}).get('Code', 'Unknown')`), or any other
exception (network/transport faults and the like). -/
inductive Fault where
  | clientError (code : String) (msg : String)
  | otherError (exnName : String) (msg : String)
deriving DecidableEq, Repr

/-- The seven classification kinds returned by `AWSErrorHandler.handle_error`
(src/error_handlers.py lines 55-84); the Python function returns these as the
strings "access_denied", "throttled", "not_found", "region_opt_in",
"auth_error", "api_error", "general_error". -/
inductive ErrorKind where
  | access_denied
  | throttled
  | not_found
  | region_opt_in
  | auth_error
  | api_error
  | general_error
deriving DecidableEq, Repr

/-- `AWSErrorHandler.ACCESS_ERRORS` (src/error_handlers.py line 28). -/
def ACCESS_ERRORS : List String :=
  ["AccessDenied", "UnauthorizedOperation", "AccessDeniedException"]

/-- `AWSErrorHandler.THROTTLING_ERRORS` (src/error_handlers.py line 29). -/
def THROTTLING_ERRORS : List String :=
  ["Throttling", "RequestLimitExceeded", "TooManyRequestsException", "ThrottlingException"]

/-- `AWSErrorHandler.RESOURCE_ERRORS` (src/error_handlers.py line 30). -/
def RESOURCE_ERRORS : List String :=
  ["ResourceNotFoundException", "NoSuchEntity", "NoSuchBucket", "NoSuchKey"]

/-- `AWSErrorHandler.REGION_ERRORS` (src/error_handlers.py line 31). -/
def REGION_ERRORS : List String :=
  ["OptInRequired", "NotSignedUp"]

/-- `AWSErrorHandler.AUTH_ERRORS` (src/error_handlers.py line 32). -/
def AUTH_ERRORS : List String :=
  ["InvalidClientTokenId", "AuthFailure", "ExpiredToken", "InvalidAccessKeyId"]

/-- `AWSErrorHandler.handle_error` (src/error_handlers.py lines 40-84): a
`ClientError` is classified by looking its error code up in the five code
vocabularies in order, falling through to `api_error`; every non-`ClientError`
exception is classified `general_error`.  Logging, which the Python method
performs alongside the classification, is not part of the returned value and
is not modelled. -/
def handle_error : Fault → ErrorKind
  | Fault.clientError code _ =>
    if code ∈ ACCESS_ERRORS then ErrorKind.access_denied
    else if code ∈ THROTTLING_ERRORS then ErrorKind.throttled
    else if code ∈ RESOURCE_ERRORS then ErrorKind.not_found
    else if code ∈ REGION_ERRORS then ErrorKind.region_opt_in
    else if code ∈ AUTH_ERRORS then ErrorKind.auth_error
    else ErrorKind.api_error
  | Fault.otherError _ _ => ErrorKind.general_error

/-- The retry loop of `aws_api_call_with_retry` (src/error_handlers.py lines
107-134).  The fallible API function is modelled as a map from the (0-indexed)
invocation number to that invocation's outcome, and the jitter drawn by
`random.uniform(0, 1)` before the n-th sleep as `jitter n`.  The first
argument of the state is the current value of the Python `retries` counter;
the second is `max_retries - retries`, the number of retries still allowed
(`retries < max_retries` in the source is exactly `remaining > 0`).
Returns (result, recorded backoff sleeps in order, number of invocations);
`none` stands for the Python `return None`. -/
def retry_go {α : Type} (api_function : Nat → Except Fault α)
    (initial_backoff : ℚ) (jitter : Nat → ℚ) :
    Nat → Nat → Option α × List ℚ × Nat
  | retries, remaining =>
    match api_function retries, remaining with
    | Except.ok v, _ => (some v, [], 1)
    | Except.error _, 0 =>
        -- with `retries < max_retries` false every classification, throttled
        -- included, reaches a `return None` branch of the if/elif chain
        (none, [], 1)
    | Except.error e, rem + 1 =>
        if handle_error e = ErrorKind.throttled then
          let backoff := min (initial_backoff * 2 ^ retries + jitter retries) 60
          let rest := retry_go api_function initial_backoff jitter (retries + 1) rem
          (rest.1, backoff :: rest.2.1, rest.2.2 + 1)
        else
          -- auth_error, region_opt_in, access_denied and the final else all
          -- `return None` without retrying
          (none, [], 1)

/-- `aws_api_call_with_retry(api_function, ..., max_retries, initial_backoff)`
(src/error_handlers.py lines 91-134), starting from `retries = 0`. -/
def aws_api_call_with_retry {α : Type} (api_function : Nat → Except Fault α)
    (max_retries : Nat) (initial_backoff : ℚ) (jitter : Nat → ℚ) :
    Option α × List ℚ × Nat :=
  retry_go api_function initial_backoff jitter 0 max_retries

/-- The throttling fault used by the repository's own retry tests
(`ClientError` with code `Throttling`). -/
def throttleFault : Fault := Fault.clientError "Throttling" "Rate exceeded"

/-- An API function that raises a throttling fault on every invocation. -/
def alwaysThrottled : Nat → Except Fault String :=
  fun _ => Except.error throttleFault

/-- A JSON-like structured API response, as returned by a boto3 client:
strings, arrays, and key/value objects. -/
inductive JVal where
  | s (v : String)
  | arr (items : List JVal)
  | obj (fields : List (String × JVal))

/-- Association-list lookup on the fields of an object. -/
def lookupStr : List (String × JVal) → String → Option JVal
  | [], _ => none
  | (k, v) :: rest, key => if k = key then some v else lookupStr rest key

/-- Python's `key in items` / `items[key]` on a dict; on a non-dict value the
source path would either miss or raise (a raised `TypeError` is caught by the
enclosing `except` with nothing further accumulated), modelled as a miss. -/
def JVal.getField : JVal → String → Option JVal
  | JVal.obj fields, key => lookupStr fields key
  | _, _ => none

/-- Python iteration (`for item in items`): over a list it yields the
elements, over a dict its keys, over a string its characters. -/
def JVal.asList : JVal → List JVal
  | JVal.arr items => items
  | JVal.obj fields => fields.map (fun f => JVal.s f.1)
  | JVal.s v => v.data.map (fun c => JVal.s (String.singleton c))

/-- The string carried by a leaf.  The registry's responses carry strings at
every position the engine reads one; a structured value in such a position
(where Python would insert `str()` of it) is mapped to `""`. -/
def JVal.asStr : JVal → String
  | JVal.s v => v
  | _ => ""

/-- `mapping['arn_format'].format(region=..., account_id=..., id=...)`: the
templates in the registry contain exactly the placeholders `\x7bregion\x7d`,
`\x7baccount_id\x7d` and `\x7bid\x7d`. -/
def formatArn (template region account_id idv : String) : String :=
  ((template.replace "{region}" region).replace "{account_id}" account_id).replace
    "{id}" idv

/-- `response_key.split('.')` on the characters of the key: split at every
dot, keeping empty segments, so `"DistributionList.Items"` becomes the two
segments and a dot-free key is a single segment. -/
def splitDotAux : List Char → List (List Char)
  | [] => [[]]
  | c :: rest =>
    let r := splitDotAux rest
    if c = '.' then [] :: r
    else
      match r with
      | [] => [[c]]
      | g :: gs => (c :: g) :: gs

/-- `response_key.split('.')` (src/scan_aws.py line 213). -/
def splitDot (s : String) : List String :=
  (splitDotAux s.data).map (fun cs => String.mk cs)

/-- The walk of `response_key.split('.')` through the response
(src/scan_aws.py lines 211-218): descend while each path segment is a present
key; on the first absent segment the collection becomes `[]` and the walk
stops. -/
def navigatePath : JVal → List String → JVal
  | v, [] => v
  | v, key :: rest =>
    match v.getField key with
    | some w => navigatePath w rest
    | none => JVal.arr []

/-- One entry of the `service_mappings` dictionary of `get_service_resources`
(src/scan_aws.py lines 39-166).  Absent dictionary keys are `none` / `false`. -/
structure ServiceMapping where
  method : String
  key : String
  id_attr : Option String := none
  arn_attr : Option String := none
  arn_format : Option String := none
  id_list : Bool := false
  arn_list : Bool := false
  direct_arn : Bool := false
  custom : Bool := false
deriving DecidableEq, Repr

/-- A registry entry carrying only `arn_attr` besides method and key
(fields in order: method, key, id_attr, arn_attr, arn_format, id_list,
arn_list, direct_arn, custom). -/
def mObjArn (method key attr : String) : ServiceMapping :=
  ServiceMapping.mk method key none (some attr) none false false false false

/-- A registry entry carrying `id_attr` and `arn_format`. -/
def mObjIdFmt (method key idAttr fmt : String) : ServiceMapping :=
  ServiceMapping.mk method key (some idAttr) none (some fmt) false false false false

/-- A registry entry carrying `id_attr` and `arn_attr` (acm, cloudhsm). -/
def mObjIdArn (method key idAttr arnAttr : String) : ServiceMapping :=
  ServiceMapping.mk method key (some idAttr) (some arnAttr) none false false false false

/-- A registry entry carrying `arn_attr` and `arn_format` (chime, codecommit,
serverlessrepo; the format is unused by the engine since `arn_attr` wins). -/
def mObjArnFmt (method key arnAttr fmt : String) : ServiceMapping :=
  ServiceMapping.mk method key none (some arnAttr) (some fmt) false false false false

/-- A registry entry with `id_list: True` and `arn_format`. -/
def mIdList (method key fmt : String) : ServiceMapping :=
  ServiceMapping.mk method key none none (some fmt) true false false false

/-- A registry entry with `arn_list: True` (inspector). -/
def mArnList (method key : String) : ServiceMapping :=
  ServiceMapping.mk method key none none none false true false false

/-- A registry entry with `direct_arn: True` (securityhub). -/
def mDirectArn (method key : String) : ServiceMapping :=
  ServiceMapping.mk method key none none none false false true false

/-- A registry entry with `custom: True` (ce, cloudwatch, health, textract). -/
def mCustom (method key : String) : ServiceMapping :=
  ServiceMapping.mk method key none none none false false false true

/-- The full `service_mappings` dictionary of `get_service_resources`
(src/scan_aws.py lines 39-166), in source order. -/
def service_mappings : List (String × ServiceMapping) := [
  ("accessanalyzer", mObjArn "list_analyzers" "analyzers" "arn"),
  ("acm", mObjIdArn "list_certificates" "CertificateSummaryList" "CertificateArn" "CertificateArn"),
  ("acm-pca", mObjArn "list_certificate_authorities" "CertificateAuthorities" "Arn"),
  ("amp", mObjArn "list_workspaces" "workspaces" "arn"),
  ("amplify", mObjArn "list_apps" "apps" "appArn"),
  ("apigateway", mObjIdFmt "get_rest_apis" "items" "id" "arn:aws:apigateway:{region}::/restapis/{id}"),
  ("apigatewayv2", mObjIdFmt "get_apis" "Items" "ApiId" "arn:aws:apigateway:{region}::/apis/{id}"),
  ("appconfig", mObjIdFmt "list_applications" "Items" "Id" "arn:aws:appconfig:{region}:{account_id}:application/{id}"),
  ("appflow", mObjArn "list_flows" "flows" "flowArn"),
  ("apprunner", mObjArn "list_services" "ServiceSummaryList" "ServiceArn"),
  ("appstream", mObjArn "describe_fleets" "Fleets" "Arn"),
  ("appsync", mObjArn "list_graphql_apis" "graphqlApis" "arn"),
  ("athena", mObjIdFmt "list_work_groups" "WorkGroups" "Name" "arn:aws:athena:{region}:{account_id}:workgroup/{id}"),
  ("auditmanager", mObjArn "list_assessments" "assessmentMetadata" "arn"),
  ("autoscaling", mObjArn "describe_auto_scaling_groups" "AutoScalingGroups" "AutoScalingGroupARN"),
  ("backup", mObjArn "list_backup_vaults" "BackupVaultList" "BackupVaultArn"),
  ("batch", mObjArn "describe_job_queues" "jobQueues" "jobQueueArn"),
  ("bedrock", mObjArn "list_custom_models" "modelSummaries" "modelArn"),
  ("ce", mCustom "get_cost_and_usage" "ResultsByTime"),
  ("chime", mObjArnFmt "list_accounts" "Accounts" "AccountId" "arn:aws:chime::{account_id}:account/{id}"),
  ("cloud9", mIdList "list_environments" "environmentIds" "arn:aws:cloud9:{region}:{account_id}:environment/{id}"),
  ("cloudfront", mObjArn "list_distributions" "DistributionList.Items" "ARN"),
  ("cloudhsm", mObjIdArn "list_hsms" "HsmList" "HsmArn" "HsmArn"),
  ("cloudsearch", mObjArn "describe_domains" "DomainStatusList" "ARN"),
  ("cloudformation", mObjArn "list_stacks" "StackSummaries" "StackId"),
  ("cloudwatch", mCustom "list_metrics" "Metrics"),
  ("codeartifact", mObjIdFmt "list_domains" "domains" "name" "arn:aws:codeartifact:{region}:{account_id}:domain/{id}"),
  ("codebuild", mIdList "list_projects" "projects" "arn:aws:codebuild:{region}:{account_id}:project/{id}"),
  ("codecommit", mObjArnFmt "list_repositories" "repositories" "repositoryId" "arn:aws:codecommit:{region}:{account_id}:repository/{id}"),
  ("codedeploy", mIdList "list_applications" "applications" "arn:aws:codedeploy:{region}:{account_id}:application:{id}"),
  ("codepipeline", mObjIdFmt "list_pipelines" "pipelines" "name" "arn:aws:codepipeline:{region}:{account_id}:{id}"),
  ("cognito-identity", mObjIdFmt "list_identity_pools" "IdentityPools" "IdentityPoolId" "arn:aws:cognito-identity:{region}:{account_id}:identitypool/{id}"),
  ("cognito-idp", mObjIdFmt "list_user_pools" "UserPools" "Id" "arn:aws:cognito-idp:{region}:{account_id}:userpool/{id}"),
  ("comprehend", mObjArn "list_document_classifiers" "DocumentClassifierPropertiesList" "DocumentClassifierArn"),
  ("config", mObjArn "describe_config_rules" "ConfigRules" "ConfigRuleArn"),
  ("connect", mObjIdFmt "list_instances" "InstanceSummaryList" "Id" "arn:aws:connect:{region}:{account_id}:instance/{id}"),
  ("datasync", mObjArn "list_tasks" "Tasks" "TaskArn"),
  ("dax", mObjArn "describe_clusters" "Clusters" "ClusterArn"),
  ("detective", mObjArn "list_graphs" "GraphList" "Arn"),
  ("devicefarm", mObjArn "list_projects" "projects" "arn"),
  ("directconnect", mObjIdFmt "describe_connections" "connections" "connectionId" "arn:aws:directconnect:{region}:{account_id}:dxcon/{id}"),
  ("dlm", mObjIdFmt "get_lifecycle_policies" "Policies" "PolicyId" "arn:aws:dlm:{region}:{account_id}:policy/{id}"),
  ("dms", mObjArn "describe_replication_instances" "ReplicationInstances" "ReplicationInstanceArn"),
  ("docdb", mObjArn "describe_db_clusters" "DBClusters" "DBClusterArn"),
  ("ds", mObjIdFmt "describe_directories" "DirectoryDescriptions" "DirectoryId" "arn:aws:ds:{region}:{account_id}:directory/{id}"),
  ("dynamodb", mIdList "list_tables" "TableNames" "arn:aws:dynamodb:{region}:{account_id}:table/{id}"),
  ("eks", mIdList "list_clusters" "clusters" "arn:aws:eks:{region}:{account_id}:cluster/{id}"),
  ("elasticache", mObjArn "describe_cache_clusters" "CacheClusters" "ARN"),
  ("elasticbeanstalk", mObjIdFmt "describe_applications" "Applications" "ApplicationName" "arn:aws:elasticbeanstalk:{region}:{account_id}:application/{id}"),
  ("elastictranscoder", mObjIdFmt "list_pipelines" "Pipelines" "Id" "arn:aws:elastictranscoder:{region}:{account_id}:pipeline/{id}"),
  ("elb", mObjIdFmt "describe_load_balancers" "LoadBalancerDescriptions" "LoadBalancerName" "arn:aws:elasticloadbalancing:{region}:{account_id}:loadbalancer/{id}"),
  ("elbv2", mObjArn "describe_load_balancers" "LoadBalancers" "LoadBalancerArn"),
  ("emr", mObjIdFmt "list_clusters" "Clusters" "Id" "arn:aws:elasticmapreduce:{region}:{account_id}:cluster/{id}"),
  ("es", mObjIdFmt "list_domain_names" "DomainNames" "DomainName" "arn:aws:es:{region}:{account_id}:domain/{id}"),
  ("events", mObjArn "list_event_buses" "EventBuses" "Arn"),
  ("firehose", mIdList "list_delivery_streams" "DeliveryStreamNames" "arn:aws:firehose:{region}:{account_id}:deliverystream/{id}"),
  ("fsx", mObjArn "describe_file_systems" "FileSystems" "ResourceARN"),
  ("gamelift", mIdList "list_fleets" "FleetIds" "arn:aws:gamelift:{region}:{account_id}:fleet/{id}"),
  ("glacier", mObjArn "list_vaults" "VaultList" "VaultARN"),
  ("glue", mObjIdFmt "get_databases" "DatabaseList" "Name" "arn:aws:glue:{region}:{account_id}:database/{id}"),
  ("greengrass", mObjIdFmt "list_groups" "Groups" "Id" "arn:aws:greengrass:{region}:{account_id}:/greengrass/groups/{id}"),
  ("guardduty", mIdList "list_detectors" "DetectorIds" "arn:aws:guardduty:{region}:{account_id}:detector/{id}"),
  ("health", mCustom "describe_events" "events"),
  ("imagebuilder", mObjArn "list_image_pipelines" "imagePipelineList" "arn"),
  ("inspector", mArnList "list_assessment_templates" "assessmentTemplateArns"),
  ("inspector2", mObjArn "list_findings" "findings" "findingArn"),
  ("iot", mObjIdFmt "list_things" "things" "thingName" "arn:aws:iot:{region}:{account_id}:thing/{id}"),
  ("kafka", mObjArn "list_clusters" "ClusterInfoList" "ClusterArn"),
  ("kendra", mObjIdFmt "list_indices" "IndexConfigurationSummaryItems" "Id" "arn:aws:kendra:{region}:{account_id}:index/{id}"),
  ("keyspaces", mObjIdFmt "list_keyspaces" "keyspaces" "keyspaceName" "arn:aws:cassandra:{region}:{account_id}:/keyspace/{id}"),
  ("kinesis", mIdList "list_streams" "StreamNames" "arn:aws:kinesis:{region}:{account_id}:stream/{id}"),
  ("kinesisvideo", mObjArn "list_streams" "StreamInfoList" "StreamARN"),
  ("kinesisanalytics", mObjIdFmt "list_applications" "ApplicationSummaries" "ApplicationName" "arn:aws:kinesisanalytics:{region}:{account_id}:application/{id}"),
  ("kinesisanalyticsv2", mObjIdFmt "list_applications" "ApplicationSummaries" "ApplicationName" "arn:aws:kinesisanalytics:{region}:{account_id}:application/KinesisAnalyticsApplication/{id}"),
  ("lambda", mObjArn "list_functions" "Functions" "FunctionArn"),
  ("kms", mObjIdFmt "list_keys" "Keys" "KeyId" "arn:aws:kms:{region}:{account_id}:key/{id}"),
  ("lakeformation", mObjArn "list_resources" "ResourceInfoList" "ResourceArn"),
  ("lex-models", mObjIdFmt "get_bots" "bots" "name" "arn:aws:lex:{region}:{account_id}:bot:{id}"),
  ("lightsail", mObjArn "get_instances" "instances" "arn"),
  ("logs", mObjArn "describe_log_groups" "logGroups" "arn"),
  ("mediaconvert", mObjArn "list_queues" "Queues" "Arn"),
  ("mediapackage", mObjIdFmt "list_channels" "Channels" "Id" "arn:aws:mediapackage:{region}:{account_id}:channels/{id}"),
  ("mediatailor", mObjIdFmt "list_playback_configurations" "Items" "Name" "arn:aws:mediatailor:{region}:{account_id}:playbackConfiguration/{id}"),
  ("memorydb", mObjArn "describe_clusters" "Clusters" "ARN"),
  ("mq", mObjIdFmt "list_brokers" "BrokerSummaries" "BrokerId" "arn:aws:mq:{region}:{account_id}:broker:{id}"),
  ("neptune", mObjArn "describe_db_clusters" "DBClusters" "DBClusterArn"),
  ("network-firewall", mObjArn "list_firewalls" "Firewalls" "FirewallArn"),
  ("networkmanager", mObjArn "describe_global_networks" "GlobalNetworks" "GlobalNetworkArn"),
  ("opensearch", mObjIdFmt "list_domain_names" "DomainNames" "DomainName" "arn:aws:es:{region}:{account_id}:domain/{id}"),
  ("opsworks", mObjArn "describe_stacks" "Stacks" "Arn"),
  ("organizations", mObjIdFmt "list_accounts" "Accounts" "Id" "arn:aws:organizations::{account_id}:account/{id}"),
  ("pinpoint", mObjIdFmt "get_apps" "ApplicationsResponse.Item" "Id" "arn:aws:mobiletargeting:{region}:{account_id}:apps/{id}"),
  ("polly", mObjIdFmt "list_lexicons" "Lexicons" "Name" "arn:aws:polly:{region}:{account_id}:lexicon/{id}"),
  ("qldb", mObjIdFmt "list_ledgers" "Ledgers" "Name" "arn:aws:qldb:{region}:{account_id}:ledger/{id}"),
  ("quicksight", mObjArn "list_dashboards" "DashboardSummaryList" "Arn"),
  ("ram", mObjArn "list_resources" "resources" "arn"),
  ("redshift", mObjArn "describe_clusters" "Clusters" "ClusterNamespaceArn"),
  ("rds", mObjArn "describe_db_instances" "DBInstances" "DBInstanceArn"),
  ("rekognition", mIdList "list_collections" "CollectionIds" "arn:aws:rekognition:{region}:{account_id}:collection/{id}"),
  ("resource-groups", mObjArn "list_groups" "Groups" "GroupArn"),
  ("robomaker", mObjArn "list_robot_applications" "robotApplicationSummaries" "arn"),
  ("route53", mObjIdFmt "list_hosted_zones" "HostedZones" "Id" "arn:aws:route53:::{id}"),
  ("route53resolver", mObjIdFmt "list_resolver_endpoints" "ResolverEndpoints" "Id" "arn:aws:route53resolver:{region}:{account_id}:resolver-endpoint/{id}"),
  ("sagemaker", mObjIdFmt "list_models" "Models" "ModelName" "arn:aws:sagemaker:{region}:{account_id}:model/{id}"),
  ("schemas", mObjArn "list_registries" "Registries" "RegistryArn"),
  ("secretsmanager", mObjArn "list_secrets" "SecretList" "ARN"),
  ("securityhub", mDirectArn "describe_hub" "HubArn"),
  ("serverlessrepo", mObjArnFmt "list_applications" "Applications" "ApplicationId" "arn:aws:serverlessrepo:{region}:{account_id}:applications/{id}"),
  ("servicecatalog", mObjIdFmt "list_portfolios" "PortfolioDetails" "Id" "arn:aws:catalog:{region}:{account_id}:portfolio/{id}"),
  ("servicediscovery", mObjIdFmt "list_services" "Services" "Id" "arn:aws:servicediscovery:{region}:{account_id}:service/{id}"),
  ("ses", mIdList "list_identities" "Identities" "arn:aws:ses:{region}:{account_id}:identity/{id}"),
  ("shield", mObjIdFmt "list_protections" "Protections" "Id" "arn:aws:shield:{region}:{account_id}:protection/{id}"),
  ("sns", mObjArn "list_topics" "Topics" "TopicArn"),
  ("signer", mObjArn "list_signing_profiles" "profiles" "arn"),
  ("stepfunctions", mObjArn "list_state_machines" "stateMachines" "stateMachineArn"),
  ("storagegateway", mObjArn "list_gateways" "Gateways" "GatewayARN"),
  ("textract", mCustom "get_document_analysis" "DocumentMetadata"),
  ("timestream-query", mObjArn "list_databases" "Databases" "Arn"),
  ("transfer", mObjArn "list_servers" "Servers" "Arn"),
  ("translate", mObjArn "list_terminologies" "TerminologyPropertiesList" "TerminologyArn"),
  ("waf", mObjIdFmt "list_rules" "Rules" "RuleId" "arn:aws:waf::{account_id}:rule/{id}"),
  ("waf-regional", mObjIdFmt "list_rules" "Rules" "RuleId" "arn:aws:waf-regional:{region}:{account_id}:rule/{id}"),
  ("wafv2", mObjArn "list_web_acls" "WebACLs" "ARN"),
  ("workspaces", mObjIdFmt "describe_workspaces" "Workspaces" "WorkspaceId" "arn:aws:workspaces:{region}:{account_id}:workspace/{id}"),
  ("xray", mObjArn "get_groups" "Groups" "GroupARN")]

/-- Dictionary lookup `service_mappings[service_name]` guarded by
`if service_name in service_mappings` (src/scan_aws.py line 169). -/
def lookupMapping (service : String) : Option ServiceMapping :=
  (service_mappings.find? (fun p => p.1 == service)).map Prod.snd

/-- The per-object step of the "list of objects" branch of
`get_service_resources` (src/scan_aws.py lines 234-249): when the mapping
carries `arn_attr`, the object's value at that field is emitted if present
(and nothing otherwise); only when the mapping has no `arn_attr` but has both
`id_attr` and `arn_format` is the ARN constructed from the object's id. -/
def objectArns (m : ServiceMapping) (region account_id : String) (item : JVal) :
    List String :=
  match m.arn_attr with
  | some attr =>
    match item.getField attr with
    | some v => [v.asStr]
    | none => []
  | none =>
    match m.id_attr, m.arn_format with
    | some idAttr, some fmt =>
      match item.getField idAttr with
      | some v => [formatArn fmt region account_id v.asStr]
      | none => []
    | _, _ => []

/-- Modelled from the spec: the `ObjectList` step as §4.2 words it — "if
`arn_attribute` is present on it, emit that value directly; else if
`id_attribute` is present, format `arn_template`" — i.e. the fallback is
decided by what the OBJECT carries, not by which fields the mapping declares.
Used only to compare against `objectArns`, the code's behaviour. -/
def objectArnsSpec (m : ServiceMapping) (region account_id : String) (item : JVal) :
    List String :=
  match m.arn_attr.bind (fun a => item.getField a) with
  | some v => [v.asStr]
  | none =>
    match m.id_attr.bind (fun a => item.getField a), m.arn_format with
    | some v, some fmt => [formatArn fmt region account_id v.asStr]
    | _, _ => []

/-- The response-extraction step of `get_service_resources` (src/scan_aws.py
lines 205-249): `direct_arn` reads the (unsplit) response key off the
top-level response; otherwise the dotted key path is walked and the located
collection is processed as bare ids (`id_list`), ready ARNs (`arn_list`), or
structured objects. -/
def extractResources (m : ServiceMapping) (region account_id : String)
    (response : JVal) : List String :=
  if m.direct_arn then
    match response.getField m.key with
    | some v => [v.asStr]
    | none => []
  else
    let items := (navigatePath response (splitDot m.key)).asList
    if m.id_list then
      match m.arn_format with
      | some fmt => items.map (fun it => formatArn fmt region account_id it.asStr)
      | none =>
        -- `mapping['arn_format']` would raise KeyError on the first element,
        -- caught by the enclosing `except` with nothing yet accumulated; no
        -- registry entry hits this case
        []
    else if m.arn_list then
      items.map JVal.asStr
    else
      items.foldr (fun it acc => objectArns m region account_id it ++ acc) []

/-- The request parameters `get_service_resources` passes to the client method
(src/scan_aws.py lines 179-203): Cost Explorer gets a trailing-30-day
`TimePeriod` with `Granularity='MONTHLY'` and `Metrics=['UnblendedCost']`
(the concrete dates, functions of the wall clock, are abstracted into the
constructor), CloudWatch gets `Namespace='AWS/EC2'`, Health gets
`filter=\x7b\x7d`, and every other service a parameterless call. -/
inductive CallParams where
  | std
  | ceTrailing30Days
  | cloudwatchNamespaceEC2
  | healthEmptyFilter
deriving DecidableEq, Repr

/-- The special-case request construction of src/scan_aws.py lines 179-203. -/
def customCallParams (service : String) : CallParams :=
  if service = "ce" then CallParams.ceTrailing30Days
  else if service = "cloudwatch" then CallParams.cloudwatchNamespaceEC2
  else if service = "health" then CallParams.healthEmptyFilter
  else CallParams.std

/-- A boto3 client, modelled as a total map from (service name, method name,
request parameters) to the call's outcome: a structured response or a raised
fault. -/
def Client : Type := String → String → CallParams → Except Fault JVal

/-- `get_service_resources(client, service_name, region, account_id)`
(src/scan_aws.py lines 34-255): a service with no mapping yields `[]` without
touching the client; textract returns `[]` before any call (lines 198-200);
otherwise the mapped method is invoked and, on success, the response is fed
to the extraction dispatch.  A fault raised by the call is caught by the
`except Exception` at line 251, which logs and falls through to
`return resources` with whatever was accumulated before the failure (nothing,
since all appends happen after the single call). -/
def get_service_resources (client : Client) (service region account_id : String) :
    List String :=
  match lookupMapping service with
  | none => []
  | some m =>
    if service = "textract" then []
    else
      match client service m.method (customCallParams service) with
      | Except.error _ => []
      | Except.ok response => extractResources m region account_id response

/-- `default_region = 'us-east-1'` (src/scan_aws.py line 10). -/
def default_region : String := "us-east-1"

/-- The `global_services` list hardcoded inside `get_all_resource_arns`
(src/scan_aws.py line 604). -/
def scan_global_services : List String := ["iam", "s3", "route53"]

/-- `DEFAULT_CONFIG["aws"]["global_services"]` (src/config.py lines 26-29);
declared by the configuration but never consumed by the orchestrator. -/
def config_global_services : List String :=
  ["iam", "s3", "route53", "cloudfront", "organizations",
   "waf", "shield", "budgets", "ce", "chatbot", "health"]

/-- The `default_services` list of `get_all_resource_arns`
(src/scan_aws.py lines 584-589). -/
def scan_default_services : List String :=
  ["ec2", "s3", "lambda", "dynamodb", "rds", "iam",
   "cloudformation", "sqs", "sns",
   "kinesisanalytics", "kinesisanalyticsv2", "cloudwatch", "route53", "ecs", "kms"]

/-- The task set submitted to the thread pool by `get_all_resource_arns`
(src/scan_aws.py lines 606-627): one `(service, default_region)` task for a
service in the hardcoded global list, one `(service, region)` task per
requested region otherwise, in submission order. -/
def buildScanTasks (services regions : List String) : List (String × String) :=
  services.foldr
    (fun s acc =>
      (if s ∈ scan_global_services then [(s, default_region)]
       else regions.map (fun r => (s, r))) ++ acc) []

/-- The service names `collect_resources_for_service` handles with bespoke
branches instead of the generic registry path (src/scan_aws.py lines
264-559). -/
def special_services : List String :=
  ["ec2", "s3", "iam", "sqs", "cloudwatch", "route53", "ecs", "kms"]

/-- `collect_resources_for_service(service_name, region, account_id, ...)`
(src/scan_aws.py lines 257-575).  The eight bespoke branches are
service-specific hand code outside the generic engine; their behaviour is
taken as an opaque collaborator `special`.  Every other service goes to the
generic `get_service_resources` (line 562).  The surrounding
`except ClientError` / `except Exception` handlers (lines 565-575) log and
return, so a task's failure never propagates past it. -/
def collect_resources_for_service (special : String → String → String → List String)
    (client : Client) (service region account_id : String) : List String :=
  if service ∈ special_services then special service region account_id
  else get_service_resources client service region account_id

/-- `get_account_id()` (src/scan_aws.py lines 18-31): the one-time STS
`get_caller_identity` call, whose outcome is the argument.  On any
`ClientError` — the authentication codes as well as the unexpected ones —
the source prints and calls `exit(1)`, terminating the process before any
task exists; this is the `none` outcome. -/
def get_account_id (sts_outcome : Except Fault String) : Option String :=
  match sts_outcome with
  | Except.ok account => some account
  | Except.error _ => none

/-- `get_all_resource_arns` (src/scan_aws.py lines 577-636): resolve the
account id (aborting the whole scan on failure), build the task set, run
every task and merge the per-task ARNs into one list.  The thread pool
completes tasks in nondeterministic order; the merge is modelled in
submission order, which fixes one representative interleaving. -/
def get_all_resource_arns (special : String → String → String → List String)
    (client : Client) (sts_outcome : Except Fault String)
    (services regions : List String) : Option (List String) :=
  match get_account_id sts_outcome with
  | none => none
  | some account_id =>
    some ((buildScanTasks services regions).foldr
      (fun t acc => collect_resources_for_service special client t.1 t.2 account_id ++ acc)
      [])

/-- An auth-classified fault (`AuthFailure` is in `AUTH_ERRORS`). -/
def authFault : Fault := Fault.clientError "AuthFailure" "auth failure"

/-- A client whose lambda calls fail with an auth fault while its sns calls
succeed with a single topic. -/
def c3Client : Client := fun service _ _ =>
  if service = "lambda" then Except.error authFault
  else Except.ok (JVal.obj [("Topics",
    JVal.arr [JVal.obj [("TopicArn", JVal.s "arn:aws:sns:us-east-1:123456789012:topic1")]])])

/-- An access-denied fault (`AccessDenied` is in `ACCESS_ERRORS`). -/
def deniedFault : Fault := Fault.clientError "AccessDenied" "Access denied"

/-- An API function that throttles on its first three invocations and then
succeeds, the shape of the repository's retry tests. -/
def throttleThriceThenOk : Nat → Except Fault String :=
  fun n => if n < 3 then Except.error throttleFault else Except.ok "response"

/-- C1: the claim reads "if the operation raises a fault classified as
Throttled on every one of its max_retries+1 invocations, then
aws_api_call_with_retry surfaces the last fault to the caller rather than
silently returning an empty/None result".  The code does the opposite: once
`retries < max_retries` fails, the throttled classification falls into the
final `else: return None` of src/error_handlers.py lines 132-134, so the
fault is swallowed.  This evaluates the embedded code at the failing input of
the repository's own test `test_aws_api_call_with_retry_max_exceeded`
(max_retries = 3, four consecutive `Throttling` faults): the function invokes
the operation 4 times, sleeps 3 times, and returns `none` — whereas that test
asserts the last `ClientError` is raised to the caller. -/
theorem C1_exhausted_retries_return_none :
    aws_api_call_with_retry alwaysThrottled 3 1 (fun _ => (1 : ℚ) / 2) =
      (none, [3 / 2, 5 / 2, 9 / 2], 4) := by
  have hthr : handle_error throttleFault = ErrorKind.throttled := by decide
  simp only [aws_api_call_with_retry]
  simp only [retry_go, alwaysThrottled, hthr, if_true, eq_self_iff_true]
  norm_num [min_def]

/-- C7: an operation whose first invocation raises a fault classified as
anything other than Throttled is invoked exactly once, with no backoff sleep,
and `aws_api_call_with_retry` returns `None`. -/
theorem C7_non_throttled_never_retried {α : Type} (api_function : Nat → Except Fault α)
    (max_retries : Nat) (initial_backoff : ℚ) (jitter : Nat → ℚ) (e : Fault)
    (h0 : api_function 0 = Except.error e)
    (hnt : handle_error e ≠ ErrorKind.throttled) :
    aws_api_call_with_retry api_function max_retries initial_backoff jitter =
      (none, [], 1) := by
  unfold aws_api_call_with_retry retry_go
  rw [h0]
  cases max_retries <;> simp [hnt]

/-- Witness for C7 at a concrete input: an access-denied fault on the first
invocation with `max_retries = 5`. -/
theorem C7_witness :
    aws_api_call_with_retry (fun _ => (Except.error deniedFault : Except Fault String))
      5 1 (fun _ => 0) = (none, [], 1) :=
  C7_non_throttled_never_retried _ 5 1 _ deniedFault rfl (by decide)
/-- Unrolling step: a successful invocation returns immediately with no
sleep. -/
theorem retry_go_ok_step {α : Type} (f : Nat → Except Fault α) (ib : ℚ) (j : Nat → ℚ)
    (retries rem : Nat) (v : α) (hf : f retries = Except.ok v) :
    retry_go f ib j retries rem = (some v, [], 1) := by
  unfold retry_go; rw [hf]

/-- Unrolling step: a throttled invocation with retries left records one
backoff sleep and continues with `retries + 1`. -/
theorem retry_go_throttled_step {α : Type} (f : Nat → Except Fault α) (ib : ℚ) (j : Nat → ℚ)
    (retries rem : Nat) (e : Fault)
    (hf : f retries = Except.error e) (ht : handle_error e = ErrorKind.throttled) :
    retry_go f ib j retries (rem + 1) =
      ((retry_go f ib j (retries + 1) rem).1,
        min (ib * 2 ^ retries + j retries) 60 :: (retry_go f ib j (retries + 1) rem).2.1,
        (retry_go f ib j (retries + 1) rem).2.2 + 1) := by
  conv_lhs => unfold retry_go
  rw [hf]
  simp [ht]

/-- C8: an operation that raises Throttled-classified faults on exactly its
first three invocations and then succeeds, run with `max_retries = 5` and the
default `initial_backoff = 1`, performs exactly 3 backoff sleeps, the n-th
(0-indexed) lasting `min(initial_backoff * 2^n + jitter_n, 60)` seconds for
the drawn `jitter_n ∈ [0, 1)`; the three sleeps are strictly increasing and
the call returns the success value (after 4 invocations in total). -/
theorem C8_three_throttles_then_success (api_function : Nat → Except Fault String)
    (jitter : Nat → ℚ) (v : String) (e0 e1 e2 : Fault)
    (h0 : api_function 0 = Except.error e0) (t0 : handle_error e0 = ErrorKind.throttled)
    (h1 : api_function 1 = Except.error e1) (t1 : handle_error e1 = ErrorKind.throttled)
    (h2 : api_function 2 = Except.error e2) (t2 : handle_error e2 = ErrorKind.throttled)
    (h3 : api_function 3 = Except.ok v)
    (hj : ∀ n, 0 ≤ jitter n ∧ jitter n < 1) :
    aws_api_call_with_retry api_function 5 1 jitter =
      (some v,
       [min (1 * 2 ^ 0 + jitter 0) 60, min (1 * 2 ^ 1 + jitter 1) 60,
        min (1 * 2 ^ 2 + jitter 2) 60], 4) ∧
    List.Chain' (· < ·)
      [min ((1 : ℚ) * 2 ^ 0 + jitter 0) 60, min (1 * 2 ^ 1 + jitter 1) 60,
       min (1 * 2 ^ 2 + jitter 2) 60] := by
  obtain ⟨j0l, j0u⟩ := hj 0
  obtain ⟨j1l, j1u⟩ := hj 1
  obtain ⟨j2l, j2u⟩ := hj 2
  have s3 : retry_go api_function 1 jitter 3 2 = (some v, [], 1) :=
    retry_go_ok_step api_function 1 jitter 3 2 v h3
  have s2 : retry_go api_function 1 jitter 2 3 =
      (some v, [min ((1 : ℚ) * 2 ^ 2 + jitter 2) 60], 2) := by
    have h := retry_go_throttled_step api_function 1 jitter 2 2 e2 h2 t2
    norm_num at h
    rw [s3] at h
    norm_num [h]
  have s1 : retry_go api_function 1 jitter 1 4 =
      (some v, [min ((1 : ℚ) * 2 ^ 1 + jitter 1) 60,
        min ((1 : ℚ) * 2 ^ 2 + jitter 2) 60], 3) := by
    have h := retry_go_throttled_step api_function 1 jitter 1 3 e1 h1 t1
    norm_num at h
    rw [s2] at h
    norm_num [h]
  have s0 : retry_go api_function 1 jitter 0 5 =
      (some v, [min ((1 : ℚ) * 2 ^ 0 + jitter 0) 60,
        min ((1 : ℚ) * 2 ^ 1 + jitter 1) 60,
        min ((1 : ℚ) * 2 ^ 2 + jitter 2) 60], 4) := by
    have h := retry_go_throttled_step api_function 1 jitter 0 4 e0 h0 t0
    norm_num at h
    rw [s1] at h
    norm_num [h]
  refine ⟨by rw [aws_api_call_with_retry, s0], ?_⟩
  have m0 : min ((1 : ℚ) * 2 ^ 0 + jitter 0) 60 = 1 * 2 ^ 0 + jitter 0 :=
    min_eq_left (by norm_num; linarith)
  have m1 : min ((1 : ℚ) * 2 ^ 1 + jitter 1) 60 = 1 * 2 ^ 1 + jitter 1 :=
    min_eq_left (by norm_num; linarith)
  have m2 : min ((1 : ℚ) * 2 ^ 2 + jitter 2) 60 = 1 * 2 ^ 2 + jitter 2 :=
    min_eq_left (by norm_num; linarith)
  rw [m0, m1, m2]
  norm_num [List.chain'_cons, List.chain'_singleton]
  constructor <;> linarith

/-- Witness for C8 at a concrete input: three `Throttling` faults then the
response `"response"`, with jitter 1/2 on every draw. -/
theorem C8_witness :
    aws_api_call_with_retry throttleThriceThenOk 5 1 (fun _ => (1 : ℚ) / 2) =
      (some "response",
       [min (1 * 2 ^ 0 + (1 : ℚ) / 2) 60, min (1 * 2 ^ 1 + (1 : ℚ) / 2) 60,
        min (1 * 2 ^ 2 + (1 : ℚ) / 2) 60], 4) ∧
    List.Chain' (· < ·)
      [min ((1 : ℚ) * 2 ^ 0 + (1 : ℚ) / 2) 60, min (1 * 2 ^ 1 + (1 : ℚ) / 2) 60,
       min (1 * 2 ^ 2 + (1 : ℚ) / 2) 60] :=
  C8_three_throttles_then_success throttleThriceThenOk (fun _ => (1 : ℚ) / 2) "response"
    throttleFault throttleFault throttleFault
    rfl (by decide) rfl (by decide) rfl (by decide) rfl
    (fun _ => ⟨by norm_num, by norm_num⟩)

/-- C6: `handle_error` is a total function into the seven kinds (being a Lean
function it assigns exactly one kind to every fault); a remote `ClientError`
whose code matches none of the five known vocabularies maps to `api_error`,
and every non-remote fault maps to `general_error`. -/
theorem C6_classifier_total (fault : Fault) (code msg exnName emsg : String)
    (hc1 : code ∉ ACCESS_ERRORS) (hc2 : code ∉ THROTTLING_ERRORS)
    (hc3 : code ∉ RESOURCE_ERRORS) (hc4 : code ∉ REGION_ERRORS)
    (hc5 : code ∉ AUTH_ERRORS) :
    (handle_error fault = ErrorKind.access_denied ∨ handle_error fault = ErrorKind.throttled ∨
     handle_error fault = ErrorKind.not_found ∨ handle_error fault = ErrorKind.region_opt_in ∨
     handle_error fault = ErrorKind.auth_error ∨ handle_error fault = ErrorKind.api_error ∨
     handle_error fault = ErrorKind.general_error) ∧
    handle_error (Fault.clientError code msg) = ErrorKind.api_error ∧
    handle_error (Fault.otherError exnName emsg) = ErrorKind.general_error := by
  refine ⟨?_, ?_, rfl⟩
  · cases fault with
    | clientError c m =>
      simp only [handle_error]
      split_ifs <;> tauto
    | otherError nm m => simp [handle_error]
  · simp [handle_error, hc1, hc2, hc3, hc4, hc5]

/-- Witness for C6 at concrete faults: an unrecognized remote code and a
transport-level exception. -/
theorem C6_witness :
    (handle_error deniedFault = ErrorKind.access_denied ∨
     handle_error deniedFault = ErrorKind.throttled ∨
     handle_error deniedFault = ErrorKind.not_found ∨
     handle_error deniedFault = ErrorKind.region_opt_in ∨
     handle_error deniedFault = ErrorKind.auth_error ∨
     handle_error deniedFault = ErrorKind.api_error ∨
     handle_error deniedFault = ErrorKind.general_error) ∧
    handle_error (Fault.clientError "SomeNewUnmappedCode" "boom") = ErrorKind.api_error ∧
    handle_error (Fault.otherError "ConnectionError" "reset") = ErrorKind.general_error :=
  C6_classifier_total deniedFault "SomeNewUnmappedCode" "boom" "ConnectionError" "reset"
    (by decide) (by decide) (by decide) (by decide) (by decide)

/-- C9: for every mapping in IdList mode (with its `arn_template`), every
region and account id, and every response whose located collection holds the
bare identifiers `ids`, the extraction returns exactly `ids.length` ARNs, the
i-th being the template formatted with that region, account id and the i-th
identifier. -/
theorem C9_idlist_extraction (m : ServiceMapping) (fmt region account_id : String)
    (ids : List String) (response : JVal)
    (hd : m.direct_arn = false) (hi : m.id_list = true) (hf : m.arn_format = some fmt)
    (hresp : navigatePath response (splitDot m.key) = JVal.arr (ids.map JVal.s)) :
    extractResources m region account_id response =
      ids.map (fun i => formatArn fmt region account_id i) ∧
    (extractResources m region account_id response).length = ids.length := by
  have hmain : extractResources m region account_id response =
      ids.map (fun i => formatArn fmt region account_id i) := by
    unfold extractResources
    rw [hd, hresp, hi, hf]
    simp [JVal.asList, JVal.asStr, List.map_map, Function.comp]
  exact ⟨hmain, by rw [hmain]; simp⟩

/-- Witness for C9 at the registry's dynamodb entry with two table names. -/
theorem C9_witness :
    extractResources
        (mIdList "list_tables" "TableNames" "arn:aws:dynamodb:{region}:{account_id}:table/{id}")
        "us-east-1" "123456789012"
        (JVal.obj [("TableNames", JVal.arr [JVal.s "t1", JVal.s "t2"])]) =
      (["t1", "t2"].map (fun i =>
        formatArn "arn:aws:dynamodb:{region}:{account_id}:table/{id}" "us-east-1" "123456789012" i)) ∧
    (extractResources
        (mIdList "list_tables" "TableNames" "arn:aws:dynamodb:{region}:{account_id}:table/{id}")
        "us-east-1" "123456789012"
        (JVal.obj [("TableNames", JVal.arr [JVal.s "t1", JVal.s "t2"])])).length =
      (["t1", "t2"] : List String).length :=
  C9_idlist_extraction
    (mIdList "list_tables" "TableNames" "arn:aws:dynamodb:{region}:{account_id}:table/{id}")
    "arn:aws:dynamodb:{region}:{account_id}:table/{id}" "us-east-1" "123456789012"
    ["t1", "t2"]
    (JVal.obj [("TableNames", JVal.arr [JVal.s "t1", JVal.s "t2"])])
    rfl rfl rfl rfl

set_option maxRecDepth 8000 in
/-- Registry sanity fact used by C4: no registry entry declares an
`arn_attr` and a distinct `id_attr` (the two entries carrying both — acm and
cloudhsm — name the same field twice), so the engine's mapping-keyed dispatch
and the spec's object-keyed fallback cannot disagree on a registry entry. -/
theorem registry_arn_id_compat :
    ∀ p ∈ service_mappings,
      p.2.arn_attr = none ∨ p.2.id_attr = none ∨ p.2.arn_attr = p.2.id_attr := by
  decide

/-- On any mapping without a conflicting `arn_attr`/`id_attr` pair, the
code's per-object extraction agrees with the spec-worded one. -/
theorem objectArns_eq_spec_of_compat (m : ServiceMapping) (region account_id : String)
    (item : JVal)
    (h : m.arn_attr = none ∨ m.id_attr = none ∨ m.arn_attr = m.id_attr) :
    objectArns m region account_id item = objectArnsSpec m region account_id item := by
  unfold objectArns objectArnsSpec
  rcases h with h | h | h
  · rw [h]
    cases hia : m.id_attr with
    | none => cases m.arn_format <;> simp
    | some ia =>
      cases hfmt : m.arn_format <;> cases hgf : item.getField ia <;> simp [hgf]
  · rw [h]
    cases ha : m.arn_attr with
    | none => cases m.arn_format <;> simp
    | some a =>
      cases hfmt : m.arn_format <;> cases hgf : item.getField a <;> simp [hgf]
  · cases ha : m.arn_attr with
    | none => rw [ha] at h; rw [← h]; cases m.arn_format <;> simp
    | some a =>
      have hid : m.id_attr = some a := by rw [← h, ha]
      rw [hid]
      cases hfmt : m.arn_format <;> cases hgf : item.getField a <;> simp [hgf]

/-- C4: for every registry mapping in ObjectList mode, the per-object
extraction behaves as the claim states it: an object carrying the mapping's
`arn_attribute` has that value emitted directly, otherwise an object carrying
the `id_attribute` has `arn_template` formatted (the spec-worded extractor is
`objectArnsSpec`, and it coincides with the code's `objectArns`); an object
carrying neither contributes zero ARNs; and the whole ObjectList extraction
is the concatenation of the per-object results over the located collection. -/
theorem C4_objectlist_extraction (svc : String) (m : ServiceMapping)
    (hmem : (svc, m) ∈ service_mappings)
    (hd : m.direct_arn = false) (hil : m.id_list = false) (hal : m.arn_list = false)
    (region account_id : String) (item : JVal) :
    objectArns m region account_id item = objectArnsSpec m region account_id item ∧
    (m.arn_attr.bind (fun a => item.getField a) = none →
      m.id_attr.bind (fun a => item.getField a) = none →
      objectArns m region account_id item = []) ∧
    (∀ response items, navigatePath response (splitDot m.key) = JVal.arr items →
      extractResources m region account_id response =
        items.foldr (fun it acc => objectArnsSpec m region account_id it ++ acc) []) := by
  have hcompat := registry_arn_id_compat (svc, m) hmem
  have hagree := fun it => objectArns_eq_spec_of_compat m region account_id it hcompat
  refine ⟨hagree item, ?_, ?_⟩
  · intro ha hi
    rw [hagree item]
    unfold objectArnsSpec
    rw [ha, hi]
  · intro response items hresp
    unfold extractResources
    rw [hd, hresp, hil, hal]
    simp only [JVal.asList, Bool.false_eq_true, if_false]
    clear hresp
    induction items with
    | nil => rfl
    | cons it rest ih => rw [List.foldr_cons, List.foldr_cons, hagree it, ih]

set_option maxRecDepth 4000 in
/-- Witness for C4 at the registry's lambda entry and an object carrying the
`FunctionArn` attribute. -/
theorem C4_witness :
    objectArns (mObjArn "list_functions" "Functions" "FunctionArn") "us-east-1" "123456789012"
        (JVal.obj [("FunctionArn", JVal.s "arn:aws:lambda:us-east-1:123456789012:function:f1")]) =
      objectArnsSpec (mObjArn "list_functions" "Functions" "FunctionArn") "us-east-1" "123456789012"
        (JVal.obj [("FunctionArn", JVal.s "arn:aws:lambda:us-east-1:123456789012:function:f1")]) ∧
    ((mObjArn "list_functions" "Functions" "FunctionArn").arn_attr.bind
        (fun a => (JVal.obj [("FunctionArn",
          JVal.s "arn:aws:lambda:us-east-1:123456789012:function:f1")]).getField a) = none →
      (mObjArn "list_functions" "Functions" "FunctionArn").id_attr.bind
        (fun a => (JVal.obj [("FunctionArn",
          JVal.s "arn:aws:lambda:us-east-1:123456789012:function:f1")]).getField a) = none →
      objectArns (mObjArn "list_functions" "Functions" "FunctionArn") "us-east-1" "123456789012"
        (JVal.obj [("FunctionArn",
          JVal.s "arn:aws:lambda:us-east-1:123456789012:function:f1")]) = []) ∧
    (∀ response items,
      navigatePath response (splitDot (mObjArn "list_functions" "Functions" "FunctionArn").key) =
          JVal.arr items →
      extractResources (mObjArn "list_functions" "Functions" "FunctionArn") "us-east-1"
          "123456789012" response =
        items.foldr (fun it acc =>
          objectArnsSpec (mObjArn "list_functions" "Functions" "FunctionArn") "us-east-1"
            "123456789012" it ++ acc) []) :=
  C4_objectlist_extraction "lambda" (mObjArn "list_functions" "Functions" "FunctionArn")
    (by decide) rfl rfl rfl "us-east-1" "123456789012"
    (JVal.obj [("FunctionArn", JVal.s "arn:aws:lambda:us-east-1:123456789012:function:f1")])

/-- A mapping with neither `arn_attr` nor `id_attr` extracts nothing from any
object. -/
theorem objectArns_nil_of_no_attrs (m : ServiceMapping) (region account_id : String)
    (h1 : m.arn_attr = none) (h2 : m.id_attr = none) (item : JVal) :
    objectArns m region account_id item = [] := by
  unfold objectArns
  rw [h1, h2]

/-- A non-custom-mode mapping with neither `arn_attr` nor `id_attr` extracts
nothing from any response (the four `custom` registry entries are of this
shape). -/
theorem extract_nil_of_no_attrs (m : ServiceMapping) (region account_id : String)
    (response : JVal)
    (hd : m.direct_arn = false) (hil : m.id_list = false) (hal : m.arn_list = false)
    (h1 : m.arn_attr = none) (h2 : m.id_attr = none) :
    extractResources m region account_id response = [] := by
  unfold extractResources
  rw [hd, hil, hal]
  simp only [Bool.false_eq_true, if_false]
  induction (navigatePath response (splitDot m.key)).asList with
  | nil => rfl
  | cons it rest ih =>
    rw [List.foldr_cons, ih, objectArns_nil_of_no_attrs m region account_id h1 h2 it]
    rfl

/-- C5: for the `is_custom` services only the request construction is
special-cased: a successful ce / cloudwatch / health call's response is
extracted through the same `extractResources` dispatch as every generic
service (with the special request parameters of src/scan_aws.py lines
179-197); textract returns before calling the client (lines 198-200), and its
result coincides with what that same dispatch produces from any response —
the empty list, since its mapping declares no extraction attributes. -/
theorem C5_custom_request_construction_only (client : Client) (region account_id : String) (response : JVal) :
    (∀ m, lookupMapping "ce" = some m →
      client "ce" m.method CallParams.ceTrailing30Days = Except.ok response →
      get_service_resources client "ce" region account_id =
        extractResources m region account_id response) ∧
    (∀ m, lookupMapping "cloudwatch" = some m →
      client "cloudwatch" m.method CallParams.cloudwatchNamespaceEC2 = Except.ok response →
      get_service_resources client "cloudwatch" region account_id =
        extractResources m region account_id response) ∧
    (∀ m, lookupMapping "health" = some m →
      client "health" m.method CallParams.healthEmptyFilter = Except.ok response →
      get_service_resources client "health" region account_id =
        extractResources m region account_id response) ∧
    (∀ m, lookupMapping "textract" = some m →
      get_service_resources client "textract" region account_id = [] ∧
      extractResources m region account_id response = []) := by
  refine ⟨?_, ?_, ?_, ?_⟩
  · intro m hm hcall
    have hcc : customCallParams "ce" = CallParams.ceTrailing30Days := rfl
    simp [get_service_resources, hm, hcc, hcall]
  · intro m hm hcall
    have hcc : customCallParams "cloudwatch" = CallParams.cloudwatchNamespaceEC2 := rfl
    simp [get_service_resources, hm, hcc, hcall]
  · intro m hm hcall
    have hcc : customCallParams "health" = CallParams.healthEmptyFilter := rfl
    simp [get_service_resources, hm, hcc, hcall]
  · intro m hm
    have hl : lookupMapping "textract" =
        some (mCustom "get_document_analysis" "DocumentMetadata") := rfl
    rw [hl] at hm
    obtain rfl := (Option.some.injEq _ _).mp hm
    refine ⟨rfl, ?_⟩
    exact extract_nil_of_no_attrs _ region account_id response rfl rfl rfl rfl rfl

/-- C10: `get_service_resources` never propagates a fault to its caller (in
the embedding it is a total function into `List String`; the source wraps the
call and extraction in `try/except` at src/scan_aws.py lines 174-253): a
service with no mapping yields `[]` with the client never consulted (the
result is the same for any two clients), a mapped service whose call raises
any fault yields the ARNs accumulated before the failure — none, as every
append follows the single call — and a successful call yields the extraction
of its response. -/
theorem C10_no_exception_escape (client client2 : Client) (service region account_id : String) :
    (lookupMapping service = none →
      get_service_resources client service region account_id = [] ∧
      get_service_resources client service region account_id =
        get_service_resources client2 service region account_id) ∧
    (∀ m fault, lookupMapping service = some m →
      client service m.method (customCallParams service) = Except.error fault →
      get_service_resources client service region account_id = []) ∧
    (∀ m response, lookupMapping service = some m → service ≠ "textract" →
      client service m.method (customCallParams service) = Except.ok response →
      get_service_resources client service region account_id =
        extractResources m region account_id response) := by
  refine ⟨?_, ?_, ?_⟩
  · intro hnone
    constructor <;> simp [get_service_resources, hnone]
  · intro m fault hm hcall
    by_cases hs : service = "textract"
    · subst hs; simp [get_service_resources, hm]
    · simp [get_service_resources, hm, hs, hcall]
  · intro m response hm hs hcall
    simp [get_service_resources, hm, hs, hcall]

/-- C2 counterexample: the claim reads "for every service in the fixed
global set (IAM, S3, Route53, CloudFront, Organizations, WAF, Shield,
Budgets, Cost Explorer, Chatbot, Health), the orchestrator emits exactly one
task".  `cloudfront` is in that configured set (src/config.py lines 26-29),
yet the orchestrator's own hardcoded list (src/scan_aws.py line 604) holds
only iam, s3 and route53, so requesting cloudfront with three regions emits
three tasks, not one. -/
theorem C2_counterexample :
    "cloudfront" ∈ config_global_services ∧
    (buildScanTasks ["cloudfront"] ["us-east-1", "eu-west-1", "ap-south-1"]).length = 3 ∧
    (buildScanTasks ["cloudfront"] ["us-east-1", "eu-west-1", "ap-south-1"]).length ≠ 1 := by
  decide

/-- C2 amended: the orchestrator collapses exactly the services of its
hardcoded list ['iam', 's3', 'route53'] to one task pinned to the default
region, regardless of how many regions are requested; every other service —
the rest of the configured global set included — gets one task per requested
region.  In particular requesting iam with three regions produces exactly one
task. -/
theorem C2_amended_global_collapse (regions : List String) (s : String) :
    (s ∈ scan_global_services → buildScanTasks [s] regions = [(s, default_region)]) ∧
    (s ∉ scan_global_services → (buildScanTasks [s] regions).length = regions.length) := by
  constructor
  · intro h; simp [buildScanTasks, h]
  · intro h; simp [buildScanTasks, h]

/-- Witness for the amended C2: iam with three requested regions yields the
single task `("iam", "us-east-1")`. -/
theorem C2_amended_witness :
    buildScanTasks ["iam"] ["us-east-1", "eu-west-1", "ap-south-1"] =
      [("iam", default_region)] :=
  (C2_amended_global_collapse ["us-east-1", "eu-west-1", "ap-south-1"] "iam").1 (by decide)

/-- C3 counterexample: the claim reads "an AuthError inside a running task
stops the whole scan rather than letting sibling tasks continue".  With valid
startup credentials, a lambda task whose call raises an AuthError-classified
fault (`AuthFailure`) is merely swallowed (src/scan_aws.py lines 251-253 /
error_handlers.py lines 123-125 both return instead of escalating), and the
scan completes with the sibling sns task's ARN in the result. -/
theorem C3_counterexample :
    handle_error authFault = ErrorKind.auth_error ∧
    get_all_resource_arns (fun _ _ _ => []) c3Client (Except.ok "123456789012")
        ["lambda", "sns"] ["us-east-1"] =
      some ["arn:aws:sns:us-east-1:123456789012:topic1"] :=
  ⟨by decide, rfl⟩

/-- C3 amended: a fault classified AuthError at the account-id resolution
step aborts the scan before any task exists (zero tasks run); but a fault —
AuthError included — raised during a task's API call only makes that task
yield no resources, and the scan still completes and merges the sibling
tasks' results. -/
theorem C3_amended_auth_scope (special : String → String → String → List String)
    (client : Client) (f : Fault) (services regions : List String)
    (account_id service region : String)
    (_hf : handle_error f = ErrorKind.auth_error)
    (hs : service ∉ special_services)
    (herr : ∀ method params, client service method params = Except.error f) :
    get_all_resource_arns special client (Except.error f) services regions = none ∧
    (get_all_resource_arns special client (Except.ok account_id) services regions).isSome
      = true ∧
    collect_resources_for_service special client service region account_id = [] := by
  refine ⟨rfl, rfl, ?_⟩
  unfold collect_resources_for_service
  rw [if_neg hs]
  unfold get_service_resources
  cases hm : lookupMapping service with
  | none => simp
  | some m =>
    by_cases ht : service = "textract"
    · simp [ht]
    · simp [ht, herr m.method (customCallParams service)]

/-- Witness for the amended C3: a client that always fails with
`AuthFailure`. -/
theorem C3_amended_auth_scope_witness :
    get_all_resource_arns (fun _ _ _ => []) (fun _ _ _ => Except.error authFault)
        (Except.error authFault) ["lambda", "sns"] ["us-east-1"] = none ∧
    (get_all_resource_arns (fun _ _ _ => []) (fun _ _ _ => Except.error authFault)
        (Except.ok "123456789012") ["lambda", "sns"] ["us-east-1"]).isSome = true ∧
    collect_resources_for_service (fun _ _ _ => []) (fun _ _ _ => Except.error authFault)
        "lambda" "us-east-1" "123456789012" = [] :=
  C3_amended_auth_scope (fun _ _ _ => []) (fun _ _ _ => Except.error authFault) authFault
    ["lambda", "sns"] ["us-east-1"] "123456789012" "lambda" "us-east-1"
    (by decide) (by decide) (fun _ _ => rfl)

/-- Witness for C5 at a concrete Cost Explorer client: the result equals the
shared dispatch applied to the call's response. -/
theorem C5_witness :
    get_service_resources
        (fun _ _ _ => Except.ok (JVal.obj [("ResultsByTime", JVal.arr [])]))
        "ce" "us-east-1" "123456789012" =
      extractResources (mCustom "get_cost_and_usage" "ResultsByTime") "us-east-1"
        "123456789012" (JVal.obj [("ResultsByTime", JVal.arr [])]) :=
  (C5_custom_request_construction_only
      (fun _ _ _ => Except.ok (JVal.obj [("ResultsByTime", JVal.arr [])]))
      "us-east-1" "123456789012" (JVal.obj [("ResultsByTime", JVal.arr [])])).1
    (mCustom "get_cost_and_usage" "ResultsByTime") rfl rfl

/-- Witness for C10 at a service name with no registry mapping and a client
that always raises a transport fault. -/
theorem C10_witness :
    get_service_resources
        (fun _ _ _ => Except.error (Fault.otherError "ConnectionError" "reset"))
        "notaservice" "us-east-1" "123456789012" = [] :=
  ((C10_no_exception_escape
      (fun _ _ _ => Except.error (Fault.otherError "ConnectionError" "reset"))
      (fun _ _ _ => Except.ok (JVal.arr []))
      "notaservice" "us-east-1" "123456789012").1 rfl).1
